import Mathlib

/-
  Shallow embedding of the Chapel GPU runtime coordination layer
  (src/runtime/src/chpl-gpu.c and src/runtime/src/gpu/nvidia/gpu-nvidia.c).

  The C code is modelled as executable Lean functions that return the ordered
  list of observable actions ("events") a call performs: backend (impl) calls,
  host allocator calls, network transport calls, remote-execution requests,
  diagnostic-counter increments and CUDA context push/pop operations.
  External inputs the C code receives from its environment (the pointer the
  backend allocator returns, the backend's host/device classification of a
  pointer, the compile-time memory strategy) are parameters of the model.

  Pointers are modelled as naturals (0 = NULL), sublocale and node ids as
  integers (negative sublocale = host), sizes as naturals.
-/

namespace ChplGpu

/-- Diagnostic counter kinds of chpl-gpu-diags (kernel_launch, device_to_device,
device_to_host, host_to_device). -/
inductive DiagKind where
  | kernel_launch
  | device_to_device
  | device_to_host
  | host_to_device
  deriving DecidableEq

/-- Observable actions issued by the coordination layer, in program order.
Constructors mirror the callee in the C source:
host allocator (chpl_malloc / chpl_mem_calloc / chpl_mem_realloc / chpl_free),
backend impl calls (chpl_gpu_impl_*), transport calls (chpl_gen_comm_put /
chpl_gen_comm_get), remote-execution requests (chpl_gpu_comm_on_get /
chpl_gpu_comm_on_put), diagnostics increments, and CUDA context operations. -/
inductive Event where
  | useDevice (dev : Int)
  | diagIncr (k : DiagKind)
  | chplMemmove (dst src : Nat) (n : Nat)
  | cMemmove (dst src : Nat) (n : Nat)
  | implCopyDtoD (dst src : Nat) (n : Nat)
  | implCopyDtoH (dst src : Nat) (n : Nat)
  | implCopyHtoD (dst src : Nat) (n : Nat)
  | implMemAlloc (ptr : Nat) (size : Nat)
  | implMemArrayAlloc (ptr : Nat) (size : Nat)
  | implMemFree (ptr : Nat)
  | hostMalloc (ptr : Nat) (size : Nat)
  | hostCalloc (ptr : Nat) (number size : Nat)
  | hostRealloc (ptr : Nat) (size : Nat)
  | hostFree (ptr : Nat)
  | netPut (localBuf : Nat) (node : Int) (raddr : Nat) (n : Nat)
  | netGet (localBuf : Nat) (node : Int) (raddr : Nat) (n : Nat)
  | onGet (subloc : Int) (addr : Nat) (node : Int) (rsubloc : Int) (raddr : Nat) (n : Nat)
  | onPut (subloc : Int) (addr : Nat) (node : Int) (rsubloc : Int) (raddr : Nat) (n : Nat)
  | loadFunction
  | cuLaunchKernel
  | cudaDeviceSync
  | ctxPush (dev : Nat)
  | ctxPop
  deriving DecidableEq

/-- c_sublocid_any: the "any/host" sublocale sentinel used by the runtime;
it is negative (host side). -/
def c_sublocid_any : Int := -1

/-- Per-process configuration the C code observes from its environment:
whether CHPL_GPU_MEM_STRATEGY_ARRAY_ON_DEVICE is defined (vs unified memory),
and the backend's physical classification chpl_gpu_impl_is_host_ptr. -/
structure GpuConfig where
  arrayOnDevice : Bool
  isHostPtr : Nat → Bool

/-- chpl_gpu_copy_device_to_device (chpl-gpu.c:277): switch to the destination
device, bump the device_to_device counter, issue the backend copy. -/
def chpl_gpu_copy_device_to_device (dst_dev : Int) (dst : Nat) (src_dev : Int)
    (src : Nat) (n : Nat) : List Event :=
  [Event.useDevice dst_dev, Event.diagIncr DiagKind.device_to_device,
   Event.implCopyDtoD dst src n]

/-- chpl_gpu_copy_device_to_host (chpl-gpu.c:296): switch to the source
device, bump the device_to_host counter, issue the backend copy. -/
def chpl_gpu_copy_device_to_host (dst : Nat) (src_dev : Int) (src : Nat)
    (n : Nat) : List Event :=
  [Event.useDevice src_dev, Event.diagIncr DiagKind.device_to_host,
   Event.implCopyDtoH dst src n]

/-- chpl_gpu_copy_host_to_device (chpl-gpu.c:313): switch to the destination
device, bump the host_to_device counter, issue the backend copy. -/
def chpl_gpu_copy_host_to_device (dst_dev : Int) (dst : Nat) (src : Nat)
    (n : Nat) : List Event :=
  [Event.useDevice dst_dev, Event.diagIncr DiagKind.host_to_device,
   Event.implCopyHtoD dst src n]

/-- chpl_gpu_memcpy (chpl-gpu.c:226): under the unified strategy, a plain
memmove; under array-on-device, both-sublocs-negative short-circuits to
chpl_memmove, otherwise the backend classifies each pointer physically and
the copy dispatches on the 2x2 host/device result. -/
def chpl_gpu_memcpy (cfg : GpuConfig) (dst_subloc : Int) (dst : Nat)
    (src_subloc : Int) (src : Nat) (n : Nat) : List Event :=
  if cfg.arrayOnDevice then
    if dst_subloc < 0 ∧ src_subloc < 0 then
      [Event.chplMemmove dst src n]
    else
      let dst_on_host := cfg.isHostPtr dst
      let src_on_host := cfg.isHostPtr src
      if !dst_on_host && !src_on_host then
        chpl_gpu_copy_device_to_device dst_subloc dst src_subloc src n
      else if !dst_on_host then
        chpl_gpu_copy_host_to_device dst_subloc dst src n
      else if !src_on_host then
        chpl_gpu_copy_device_to_host dst src_subloc src n
      else
        [Event.cMemmove dst src n]
  else
    [Event.cMemmove dst src n]

/-- chpl_gpu_comm_put (chpl-gpu.c:162): if the source sublocale is a device,
stage through a freshly chpl_malloc-ed host buffer (the address the host
allocator returns is the `staging` parameter) via chpl_gpu_memcpy; a
device-sublocale destination goes through an on+get remote request, a host
destination through a direct chpl_gen_comm_put; the staging buffer, if any,
is freed last. -/
def chpl_gpu_comm_put (cfg : GpuConfig) (dst_node dst_subloc : Int) (dst : Nat)
    (src_subloc : Int) (src : Nat) (size : Nat) (staging : Nat) : List Event :=
  let src_data := if 0 ≤ src_subloc then staging else src
  let src_data_subloc := if 0 ≤ src_subloc then c_sublocid_any else src_subloc
  (if 0 ≤ src_subloc then
      Event.hostMalloc staging size ::
        chpl_gpu_memcpy cfg src_data_subloc src_data src_subloc src size
   else []) ++
  (if 0 ≤ dst_subloc then
      [Event.onGet src_data_subloc src_data dst_node dst_subloc dst size]
   else
      [Event.netPut src_data dst_node dst size]) ++
  (if 0 ≤ src_subloc then [Event.hostFree staging] else [])

/-- chpl_gpu_comm_get (chpl-gpu.c:194): a device-sublocale destination gets a
freshly chpl_malloc-ed host buffer (address = `staging`) as the transport
destination; a device-sublocale source goes through an on+put remote request,
a host source through a direct chpl_gen_comm_get; if staged, the buffer is
copied into the destination via chpl_gpu_memcpy and freed. -/
def chpl_gpu_comm_get (cfg : GpuConfig) (dst_subloc : Int) (dst : Nat)
    (src_node src_subloc : Int) (src : Nat) (size : Nat) (staging : Nat) :
    List Event :=
  let dst_buff := if 0 ≤ dst_subloc then staging else dst
  let dst_buff_subloc := if 0 ≤ dst_subloc then c_sublocid_any else dst_subloc
  (if 0 ≤ dst_subloc then [Event.hostMalloc staging size] else []) ++
  (if 0 ≤ src_subloc then
      [Event.onPut dst_buff_subloc dst_buff src_node src_subloc src size]
   else
      [Event.netGet dst_buff src_node src size]) ++
  (if 0 ≤ dst_subloc then
      chpl_gpu_memcpy cfg dst_subloc dst dst_buff_subloc dst_buff size ++
        [Event.hostFree staging]
   else [])

/-- chpl_gpu_mem_alloc (chpl-gpu.c:346): size 0 returns NULL with no backend
activity; otherwise switch to the requested device and call the backend
allocator, whose returned address is the `ret` parameter. Result is the
event trace paired with the returned pointer. -/
def chpl_gpu_mem_alloc (subloc : Int) (ret : Nat) (size : Nat) :
    List Event × Nat :=
  if 0 < size then
    ([Event.useDevice subloc, Event.implMemAlloc ret size], ret)
  else
    ([], 0)

/-- chpl_gpu_mem_array_alloc (chpl-gpu.c:369): switches to the requested
device unconditionally (before the size test), then calls the backend array
allocator only when size > 0; size 0 returns NULL. -/
def chpl_gpu_mem_array_alloc (subloc : Int) (ret : Nat) (size : Nat) :
    List Event × Nat :=
  (Event.useDevice subloc ::
      (if 0 < size then [Event.implMemArrayAlloc ret size] else []),
   if 0 < size then ret else 0)

/-- chpl_gpu_mem_free (chpl-gpu.c:391): switch to the requested device, then
backend free. -/
def chpl_gpu_mem_free (subloc : Int) (ptr : Nat) : List Event :=
  [Event.useDevice subloc, Event.implMemFree ptr]

/-- chpl_gpu_mem_calloc (chpl-gpu.c:403): guarded by size > 0 only. When
size > 0 it host-callocs number*size zero bytes (address = `hostPtr`),
switches device, backend-allocates number*size bytes (address = `devPtr`),
copies host to device, frees the host buffer and returns the device pointer;
when size = 0 it returns NULL with no activity. -/
def chpl_gpu_mem_calloc (subloc : Int) (hostPtr devPtr : Nat)
    (number size : Nat) : List Event × Nat :=
  if 0 < size then
    ([Event.hostCalloc hostPtr number size,
      Event.useDevice subloc,
      Event.implMemAlloc devPtr (number * size),
      Event.implCopyHtoD devPtr hostPtr (number * size),
      Event.hostFree hostPtr], devPtr)
  else
    ([], 0)

/-- chpl_gpu_mem_realloc (chpl-gpu.c:441): switch device; under
GPU_RUNTIME_CPU (`cpu` = true) delegate to host realloc (whose returned
address is `newPtr`); otherwise read the current allocation size, return the
pointer unchanged if it equals the requested size, else allocate the new
size via chpl_gpu_mem_alloc (backend address = `newPtr`), copy
min(new, current) bytes device-to-device, free the old pointer and return
the new one. -/
def chpl_gpu_mem_realloc (cpu : Bool) (subloc : Int) (curSize : Nat)
    (newPtr : Nat) (ptr : Nat) (size : Nat) : List Event × Nat :=
  if cpu then
    ([Event.useDevice subloc, Event.hostRealloc ptr size], newPtr)
  else
    if size = curSize then
      ([Event.useDevice subloc], ptr)
    else
      let alloc := chpl_gpu_mem_alloc subloc newPtr size
      let copySize := if size < curSize then size else curSize
      (Event.useDevice subloc ::
         (alloc.1 ++
          [Event.implCopyDtoD alloc.2 ptr copySize] ++
          chpl_gpu_mem_free subloc ptr),
       alloc.2)

/-- The CHPL_RT_NUM_GPUS_PER_LOCALE environment setting as chpl_gpu_init
observes it: absent, present but unparsable by sscanf, or a parsed integer. -/
inductive EnvSetting where
  | absent
  | malformed
  | value (n : Int)
  deriving DecidableEq

/-- The two chpl_error calls in chpl_gpu_init (chpl-gpu.c:48 and :53); both
are fatal configuration errors. -/
inductive InitError where
  | cannotParse
  | negativeCount
  deriving DecidableEq

/-- chpl_gpu_impl_init (gpu-nvidia.c:104), device-count part: the sentinel
-1 (environment setting absent) selects all detected devices, otherwise the
configured count is clamped to the detected count. -/
def chpl_gpu_impl_init (numDevices detected : Int) : Int :=
  if numDevices = -1 then detected
  else if numDevices < detected then numDevices else detected

/-- chpl_gpu_init (chpl-gpu.c:42): absent setting keeps the -1 sentinel; an
unparsable setting is the fatal "Cannot parse" error; a parsed negative
value is the fatal "must be >= 0" error; otherwise chpl_gpu_impl_init clamps
the value to the detected device count. -/
def chpl_gpu_init (env : EnvSetting) (detected : Int) : Except InitError Int :=
  match env with
  | EnvSetting.absent => Except.ok (chpl_gpu_impl_init (-1) detected)
  | EnvSetting.malformed => Except.error InitError.cannotParse
  | EnvSetting.value n =>
      if n < 0 then Except.error InitError.negativeCount
      else Except.ok (chpl_gpu_impl_init n detected)

/-- switch_context (gpu-nvidia.c:67) on the per-node context state
(none = no current CUDA context; some d = device d's primary context is
current): no context pushes the target context; the same context is a
no-op; a different context is popped then the target pushed. Returns the
new state and the push/pop trace. -/
def switch_context (st : Option Nat) (dev_id : Nat) : Option Nat × List Event :=
  match st with
  | none => (some dev_id, [Event.ctxPush dev_id])
  | some cur =>
      if cur = dev_id then (some cur, [])
      else (some dev_id, [Event.ctxPop, Event.ctxPush dev_id])

/-- A sequence of switch_context calls threaded through the context state,
accumulating the push/pop trace. -/
def switchSeq (st : Option Nat) : List Nat → Option Nat × List Event
  | [] => (st, [])
  | d :: ds =>
      let first := switch_context st d
      let rest := switchSeq first.1 ds
      (rest.1, first.2 ++ rest.2)

/-- Argument-staging loop of chpl_gpu_launch_kernel_help (gpu-nvidia.c:210):
kernel arguments are (pointer, size) pairs; a positive size allocates a
device buffer via chpl_gpu_mem_alloc (the backend hands arg i the address
`fresh i`) and copies the host bytes in; size 0 passes the pointer through.
Returns the staging trace and, per argument, the effective parameter and
whether memory was dynamically allocated for it. -/
def stageArgs (subloc : Int) (fresh : Nat → Nat) :
    List (Nat × Nat) → List Event × List (Nat × Bool)
  | [] => ([], [])
  | a :: rest =>
      let tail := stageArgs subloc (fun i => fresh (i + 1)) rest
      if 0 < a.2 then
        ((chpl_gpu_mem_alloc subloc (fresh 0) a.2).1 ++
           (Event.implCopyHtoD (fresh 0) a.1 a.2 :: tail.1),
         (fresh 0, true) :: tail.2)
      else
        (tail.1, (a.1, false) :: tail.2)

/-- Teardown loop of chpl_gpu_launch_kernel_help (gpu-nvidia.c:258): free,
via chpl_gpu_mem_free, exactly the parameters whose
was_memory_dynamically_allocated_for_kernel_param flag is set. -/
def freeStaged (subloc : Int) : List (Nat × Bool) → List Event
  | [] => []
  | p :: rest =>
      (if p.2 then chpl_gpu_mem_free subloc p.1 else []) ++ freeStaged subloc rest

/-- chpl_gpu_launch_kernel_help (gpu-nvidia.c:174): load the kernel function,
stage the arguments, cuLaunchKernel, cudaDeviceSynchronize, then free the
dynamically allocated parameter buffers. (Host-side bookkeeping arrays for
the parameter vector are omitted from the trace; no claim concerns them.) -/
def chpl_gpu_launch_kernel_help (subloc : Int) (fresh : Nat → Nat)
    (args : List (Nat × Nat)) : List Event :=
  Event.loadFunction ::
    ((stageArgs subloc fresh args).1 ++
     (Event.cuLaunchKernel :: Event.cudaDeviceSync ::
        freeStaged subloc (stageArgs subloc fresh args).2))

/-- chpl_gpu_launch_kernel (chpl-gpu.c:78): switch to the requested device,
bump the kernel_launch diagnostic counter once, then run the launch helper. -/
def chpl_gpu_launch_kernel (subloc : Int) (fresh : Nat → Nat)
    (args : List (Nat × Nat)) : List Event :=
  Event.useDevice subloc :: Event.diagIncr DiagKind.kernel_launch ::
    chpl_gpu_launch_kernel_help subloc fresh args

/-- Pointers handed to the backend device allocator, in trace order. -/
def allocPtrs (t : List Event) : List Nat :=
  t.filterMap fun e =>
    match e with
    | Event.implMemAlloc p _ => some p
    | _ => none

/-- Pointers handed to the backend device free, in trace order. -/
def freedPtrs (t : List Event) : List Nat :=
  t.filterMap fun e =>
    match e with
    | Event.implMemFree p => some p
    | _ => none

/-- Number of kernel_launch diagnostic-counter increments in a trace. -/
def launchCount (t : List Event) : Nat :=
  (t.filter fun e =>
    match e with
    | Event.diagIncr DiagKind.kernel_launch => true
    | _ => false).length

/-- Number of context pushes in a trace. -/
def countPushes (t : List Event) : Nat :=
  (t.filter fun e =>
    match e with
    | Event.ctxPush _ => true
    | _ => false).length

/-- Indices (within the argument list) of the by-value (size > 0) arguments;
argument i's staging buffer is fresh i, so these are the staged buffers'
fresh-supply indices. -/
def stagedIdx : List (Nat × Nat) → List Nat
  | [] => []
  | a :: rest =>
      (if 0 < a.2 then [0] else []) ++ (stagedIdx rest).map (· + 1)

/-- Number of by-value (size > 0) arguments in a launch descriptor. -/
def stagedCount (args : List (Nat × Nat)) : Nat :=
  (args.filter fun a => decide (0 < a.2)).length

/-- A concrete array-on-device configuration used by witnesses: addresses
below 100 are host-resident, addresses from 100 up are device-resident. -/
def cfgA : GpuConfig := ⟨true, fun p => decide (p < 100)⟩

/-- Helper: chpl_gpu_memcpy always reduces to one of its five branch
traces. -/
theorem memcpy_cases (cfg : GpuConfig) (ds : Int) (dst : Nat) (ss : Int)
    (src : Nat) (n : Nat) :
    chpl_gpu_memcpy cfg ds dst ss src n = [Event.chplMemmove dst src n] ∨
    chpl_gpu_memcpy cfg ds dst ss src n = [Event.cMemmove dst src n] ∨
    chpl_gpu_memcpy cfg ds dst ss src n =
      chpl_gpu_copy_device_to_device ds dst ss src n ∨
    chpl_gpu_memcpy cfg ds dst ss src n =
      chpl_gpu_copy_host_to_device ds dst src n ∨
    chpl_gpu_memcpy cfg ds dst ss src n =
      chpl_gpu_copy_device_to_host dst ss src n := by
  cases ha : cfg.arrayOnDevice
  · exact Or.inr (Or.inl (by simp [chpl_gpu_memcpy, ha]))
  · by_cases hneg : ds < 0 ∧ ss < 0
    · exact Or.inl (by simp [chpl_gpu_memcpy, ha, hneg])
    · cases h1 : cfg.isHostPtr dst <;> cases h2 : cfg.isHostPtr src
      · exact Or.inr (Or.inr (Or.inl
          (by simp [chpl_gpu_memcpy, ha, hneg, h1, h2])))
      · exact Or.inr (Or.inr (Or.inr (Or.inl
          (by simp [chpl_gpu_memcpy, ha, hneg, h1, h2]))))
      · exact Or.inr (Or.inr (Or.inr (Or.inr
          (by simp [chpl_gpu_memcpy, ha, hneg, h1, h2]))))
      · exact Or.inr (Or.inl (by simp [chpl_gpu_memcpy, ha, hneg, h1, h2]))

/-- Helper: the local copy engine never issues a direct network transport
call. -/
theorem memcpy_no_net (cfg : GpuConfig) (ds : Int) (dst : Nat) (ss : Int)
    (src : Nat) (n : Nat) (b : Nat) (node : Int) (raddr : Nat) (m : Nat) :
    Event.netPut b node raddr m ∉ chpl_gpu_memcpy cfg ds dst ss src n ∧
    Event.netGet b node raddr m ∉ chpl_gpu_memcpy cfg ds dst ss src n := by
  rcases memcpy_cases cfg ds dst ss src n with h | h | h | h | h <;>
    rw [h] <;>
    simp [chpl_gpu_copy_device_to_device, chpl_gpu_copy_host_to_device,
      chpl_gpu_copy_device_to_host]

/-- C3: for every local copy, the Unified strategy always performs a plain
local memory move regardless of subloc tags; under ArrayOnDevice, two
negative sublocs give a plain local move, and otherwise the backend's
physical residency classification of each pointer selects device-to-device,
host-to-device, device-to-host, or (both physically host) a plain local
move. -/
theorem memcpy_dispatch (cfg : GpuConfig) (ds : Int) (dst : Nat) (ss : Int)
    (src : Nat) (n : Nat) :
    (cfg.arrayOnDevice = false →
      chpl_gpu_memcpy cfg ds dst ss src n = [Event.cMemmove dst src n]) ∧
    (cfg.arrayOnDevice = true → ds < 0 → ss < 0 →
      chpl_gpu_memcpy cfg ds dst ss src n = [Event.chplMemmove dst src n]) ∧
    (cfg.arrayOnDevice = true → ¬(ds < 0 ∧ ss < 0) →
      ((cfg.isHostPtr dst = false → cfg.isHostPtr src = false →
          chpl_gpu_memcpy cfg ds dst ss src n =
            chpl_gpu_copy_device_to_device ds dst ss src n) ∧
       (cfg.isHostPtr dst = false → cfg.isHostPtr src = true →
          chpl_gpu_memcpy cfg ds dst ss src n =
            chpl_gpu_copy_host_to_device ds dst src n) ∧
       (cfg.isHostPtr dst = true → cfg.isHostPtr src = false →
          chpl_gpu_memcpy cfg ds dst ss src n =
            chpl_gpu_copy_device_to_host dst ss src n) ∧
       (cfg.isHostPtr dst = true → cfg.isHostPtr src = true →
          chpl_gpu_memcpy cfg ds dst ss src n = [Event.cMemmove dst src n]))) := by
  refine ⟨fun hu => ?_, fun ha hd hs => ?_, fun ha hns => ?_⟩
  · simp [chpl_gpu_memcpy, hu]
  · simp [chpl_gpu_memcpy, ha, hd, hs]
  · refine ⟨fun h1 h2 => ?_, fun h1 h2 => ?_, fun h1 h2 => ?_, fun h1 h2 => ?_⟩ <;>
      simp [chpl_gpu_memcpy, ha, hns, h1, h2]

/-- C3 witness: with both pointers physically on the device and non-negative
sublocs, the ArrayOnDevice copy is device-to-device. -/
theorem memcpy_dispatch_witness :
    chpl_gpu_memcpy cfgA 0 200 0 201 4 =
      chpl_gpu_copy_device_to_device 0 200 0 201 4 :=
  ((memcpy_dispatch cfgA 0 200 0 201 4).2.2 rfl (by decide)).1 (by decide) (by decide)

/-- C1: a distributed put stages a device-resident source through a host
buffer filled device-to-host by the copy engine before any transport call
and frees it last; a device-resident destination goes through an on+get
remote request on the destination node, a host destination through a direct
network PUT of the possibly staged buffer. -/
theorem comm_put_spec (cfg : GpuConfig) (dn ds : Int) (dst : Nat) (ss : Int)
    (src : Nat) (n staging : Nat) :
    (0 ≤ ss →
      chpl_gpu_comm_put cfg dn ds dst ss src n staging =
        (Event.hostMalloc staging n ::
          chpl_gpu_memcpy cfg c_sublocid_any staging ss src n) ++
        (if 0 ≤ ds then [Event.onGet c_sublocid_any staging dn ds dst n]
         else [Event.netPut staging dn dst n]) ++
        [Event.hostFree staging]) ∧
    (ss < 0 →
      chpl_gpu_comm_put cfg dn ds dst ss src n staging =
        (if 0 ≤ ds then [Event.onGet ss src dn ds dst n]
         else [Event.netPut src dn dst n])) ∧
    (cfg.arrayOnDevice = true → cfg.isHostPtr staging = true →
     cfg.isHostPtr src = false → 0 ≤ ss →
      chpl_gpu_memcpy cfg c_sublocid_any staging ss src n =
        chpl_gpu_copy_device_to_host staging ss src n) := by
  refine ⟨fun hs => ?_, fun hs => ?_, fun ha hh hd hs => ?_⟩
  · simp [chpl_gpu_comm_put, hs]
  · simp [chpl_gpu_comm_put, hs, not_le.mpr hs]
  · simp [chpl_gpu_memcpy, ha, hh, hd, c_sublocid_any, not_lt.mpr hs]

/-- C1 witness: device source, host destination — the source is staged,
transported by a direct network PUT of the staging buffer, and freed. -/
theorem comm_put_spec_witness :
    chpl_gpu_comm_put cfgA 1 (-1) 10 0 200 8 20 =
      (Event.hostMalloc 20 8 ::
        chpl_gpu_memcpy cfgA c_sublocid_any 20 0 200 8) ++
      (if (0:Int) ≤ -1 then [Event.onGet c_sublocid_any 20 1 (-1) 10 8]
       else [Event.netPut 20 1 10 8]) ++
      [Event.hostFree 20] :=
  (comm_put_spec cfgA 1 (-1) 10 0 200 8 20).1 (by decide)

/-- C2: a distributed get gives a device-resident destination a host staging
buffer as transport destination; a device-resident source goes through an
on+put remote request on the source node, a host source through a direct
network GET; a staged destination is then filled host-to-device by the copy
engine and the buffer freed. -/
theorem comm_get_spec (cfg : GpuConfig) (ds : Int) (dst : Nat) (sn ss : Int)
    (src : Nat) (n staging : Nat) :
    (0 ≤ ds →
      chpl_gpu_comm_get cfg ds dst sn ss src n staging =
        [Event.hostMalloc staging n] ++
        (if 0 ≤ ss then [Event.onPut c_sublocid_any staging sn ss src n]
         else [Event.netGet staging sn src n]) ++
        (chpl_gpu_memcpy cfg ds dst c_sublocid_any staging n ++
          [Event.hostFree staging])) ∧
    (ds < 0 →
      chpl_gpu_comm_get cfg ds dst sn ss src n staging =
        (if 0 ≤ ss then [Event.onPut ds dst sn ss src n]
         else [Event.netGet dst sn src n])) ∧
    (cfg.arrayOnDevice = true → cfg.isHostPtr dst = false →
     cfg.isHostPtr staging = true → 0 ≤ ds →
      chpl_gpu_memcpy cfg ds dst c_sublocid_any staging n =
        chpl_gpu_copy_host_to_device ds dst staging n) := by
  refine ⟨fun hd => ?_, fun hd => ?_, fun ha h1 h2 hd => ?_⟩
  · simp [chpl_gpu_comm_get, hd]
  · simp [chpl_gpu_comm_get, hd, not_le.mpr hd]
  · simp [chpl_gpu_memcpy, ha, h1, h2, not_lt.mpr hd]

/-- C2 witness: device destination, host source — a staging buffer is the
transport destination of a direct network GET, then copied into the device
destination and freed. -/
theorem comm_get_spec_witness :
    chpl_gpu_comm_get cfgA 0 200 1 (-1) 30 8 20 =
      [Event.hostMalloc 20 8] ++
      (if (0:Int) ≤ -1 then [Event.onPut c_sublocid_any 20 1 (-1) 30 8]
       else [Event.netGet 20 1 30 8]) ++
      (chpl_gpu_memcpy cfgA 0 200 c_sublocid_any 20 8 ++
        [Event.hostFree 20]) :=
  (comm_get_spec cfgA 0 200 1 (-1) 30 8 20).1 (by decide)

/-- C4: in the distributed put and get, every local buffer handed to the
direct network transport primitives is host-resident — the host staging
buffer when the corresponding endpoint sublocale is a device, or the
original buffer whose sublocale is negative; no other transport-primitive
call occurs. -/
theorem transport_host_only (cfg : GpuConfig) (dn ds : Int) (dst : Nat)
    (ss : Int) (src : Nat) (n staging : Nat) (b : Nat) (node : Int)
    (raddr : Nat) (m : Nat) :
    ((Event.netPut b node raddr m ∈
        chpl_gpu_comm_put cfg dn ds dst ss src n staging →
        (0 ≤ ss ∧ b = staging) ∨ (ss < 0 ∧ b = src)) ∧
     Event.netGet b node raddr m ∉
        chpl_gpu_comm_put cfg dn ds dst ss src n staging) ∧
    ((Event.netGet b node raddr m ∈
        chpl_gpu_comm_get cfg ds dst dn ss src n staging →
        (0 ≤ ds ∧ b = staging) ∨ (ds < 0 ∧ b = dst)) ∧
     Event.netPut b node raddr m ∉
        chpl_gpu_comm_get cfg ds dst dn ss src n staging) := by
  have hput := memcpy_no_net cfg c_sublocid_any staging ss src n b node raddr m
  have hget := memcpy_no_net cfg ds dst c_sublocid_any staging n b node raddr m
  by_cases hs : 0 ≤ ss <;> by_cases hd : 0 ≤ ds <;>
    refine ⟨⟨fun hmem => ?_, fun hmem => ?_⟩, fun hmem => ?_, fun hmem => ?_⟩ <;>
    simp [chpl_gpu_comm_put, chpl_gpu_comm_get, hs, hd, hput.1, hput.2,
      hget.1, hget.2] at hmem <;>
    simp_all [not_le]

/-- C4 witness: with a host source sublocale and host destination sublocale,
the direct network PUT carries the original source buffer, which the theorem
classifies as the negative-subloc case. -/
theorem transport_host_only_witness :
    ((0:Int) ≤ -1 ∧ (30:Nat) = 20) ∨ ((-1:Int) < 0 ∧ (30:Nat) = 30) :=
  (transport_host_only cfgA 1 (-1) 10 (-1) 30 8 20 30 1 10 8).1.1 (by decide)

/-- C6 counterexample: chpl_gpu_mem_calloc is guarded by size > 0 only, so
number = 0 with size = 1 (total byte count 0) still runs the full path: it
returns the backend pointer (8, non-null) and invokes the backend allocator
with total size 0; chpl_gpu_mem_array_alloc with size 0 still performs the
backend device switch. -/
theorem zero_size_alloc_cex :
    (chpl_gpu_mem_calloc 0 7 8 0 1).2 = 8 ∧
    (chpl_gpu_mem_calloc 0 7 8 0 1).2 ≠ 0 ∧
    Event.implMemAlloc 8 0 ∈ (chpl_gpu_mem_calloc 0 7 8 0 1).1 ∧
    Event.useDevice 0 ∈ (chpl_gpu_mem_array_alloc 0 5 0).1 := by
  decide

/-- C6 amended: alloc with size 0 is a no-op returning null with no backend
activity; arrayAlloc with size 0 returns null without reaching the backend
allocator but still performs the backend device context switch; calloc is
guarded by size = 0 only — size 0 is a no-op returning null, while number 0
with positive size runs the full path, invoking the backend allocator with
a total byte count of 0 and returning its pointer. -/
theorem zero_size_alloc_amended (subloc : Int) (ret hostPtr devPtr : Nat)
    (number size : Nat) :
    chpl_gpu_mem_alloc subloc ret 0 = ([], 0) ∧
    chpl_gpu_mem_array_alloc subloc ret 0 = ([Event.useDevice subloc], 0) ∧
    chpl_gpu_mem_calloc subloc hostPtr devPtr number 0 = ([], 0) ∧
    (0 < size →
      chpl_gpu_mem_calloc subloc hostPtr devPtr 0 size =
        ([Event.hostCalloc hostPtr 0 size, Event.useDevice subloc,
          Event.implMemAlloc devPtr 0, Event.implCopyHtoD devPtr hostPtr 0,
          Event.hostFree hostPtr], devPtr)) := by
  refine ⟨?_, ?_, ?_, fun hpos => ?_⟩
  · simp [chpl_gpu_mem_alloc]
  · simp [chpl_gpu_mem_array_alloc]
  · simp [chpl_gpu_mem_calloc]
  · simp [chpl_gpu_mem_calloc, hpos]

/-- C6 amended witness: the calloc zero-total path at number 0, size 1. -/
theorem zero_size_alloc_amended_witness :
    chpl_gpu_mem_calloc 0 7 8 0 1 =
      ([Event.hostCalloc 7 0 1, Event.useDevice 0, Event.implMemAlloc 8 0,
        Event.implCopyHtoD 8 7 0, Event.hostFree 7], 8) :=
  (zero_size_alloc_amended 0 5 7 8 0 1).2.2.2 (by decide)

/-- C7: under a non-CPU-emulation backend, realloc to the current size
returns the pointer unchanged with no backend allocation, copy or free;
realloc to a different size allocates the new size (a backend allocation of
exactly newSize bytes whenever newSize > 0), copies min(newSize, curSize)
bytes device-to-device from the old pointer into the fresh allocation,
frees the old pointer and returns the new one. -/
theorem realloc_spec (subloc : Int) (curSize newPtr ptr size : Nat) :
    (size = curSize →
      chpl_gpu_mem_realloc false subloc curSize newPtr ptr size =
        ([Event.useDevice subloc], ptr)) ∧
    (size ≠ curSize →
      (chpl_gpu_mem_realloc false subloc curSize newPtr ptr size).1 =
        Event.useDevice subloc ::
          ((chpl_gpu_mem_alloc subloc newPtr size).1 ++
           [Event.implCopyDtoD (chpl_gpu_mem_alloc subloc newPtr size).2 ptr
              (min size curSize)] ++
           [Event.useDevice subloc, Event.implMemFree ptr]) ∧
      (chpl_gpu_mem_realloc false subloc curSize newPtr ptr size).2 =
        (chpl_gpu_mem_alloc subloc newPtr size).2 ∧
      (0 < size →
        Event.implMemAlloc newPtr size ∈
          (chpl_gpu_mem_realloc false subloc curSize newPtr ptr size).1 ∧
        (chpl_gpu_mem_realloc false subloc curSize newPtr ptr size).2 = newPtr)) := by
  have hmin : (if size < curSize then size else curSize) = min size curSize := by
    rcases Nat.lt_or_ge size curSize with h | h
    · rw [if_pos h, Nat.min_eq_left (Nat.le_of_lt h)]
    · rw [if_neg (Nat.not_lt.mpr h), Nat.min_eq_right h]
  refine ⟨fun he => ?_, fun hne => ⟨?_, ?_, fun hpos => ⟨?_, ?_⟩⟩⟩
  · simp [chpl_gpu_mem_realloc, he]
  · simp [chpl_gpu_mem_realloc, hne, chpl_gpu_mem_free, hmin]
  · simp [chpl_gpu_mem_realloc, hne]
  · simp [chpl_gpu_mem_realloc, chpl_gpu_mem_alloc, hne, hpos]
  · simp [chpl_gpu_mem_realloc, chpl_gpu_mem_alloc, hne, hpos]

/-- C7 witness: shrinking a 4-byte allocation to 2 bytes allocates 2 bytes
at the backend-returned address and returns it. -/
theorem realloc_spec_witness :
    Event.implMemAlloc 50 2 ∈ (chpl_gpu_mem_realloc false 0 4 50 10 2).1 ∧
    (chpl_gpu_mem_realloc false 0 4 50 10 2).2 = 50 :=
  ((realloc_spec 0 4 50 10 2).2 (by decide)).2.2 (by decide)

/-- C10: under a non-CPU-emulation backend, realloc of a pointer with
positive current size to 0 bytes takes the size-differs path: the 0-byte
allocation request yields the null allocation with no backend allocation
call, a zero-byte device-to-device copy with null destination is issued,
the old pointer is freed and null is returned. -/
theorem realloc_zero_spec (subloc : Int) (curSize newPtr ptr : Nat)
    (h : 0 < curSize) :
    chpl_gpu_mem_realloc false subloc curSize newPtr ptr 0 =
      ([Event.useDevice subloc, Event.implCopyDtoD 0 ptr 0,
        Event.useDevice subloc, Event.implMemFree ptr], 0) := by
  have hne : (0:Nat) ≠ curSize := by omega
  simp [chpl_gpu_mem_realloc, hne, h, chpl_gpu_mem_alloc, chpl_gpu_mem_free]

/-- C10 witness: realloc of a 4-byte allocation to 0 bytes. -/
theorem realloc_zero_spec_witness :
    chpl_gpu_mem_realloc false 0 4 50 10 0 =
      ([Event.useDevice 0, Event.implCopyDtoD 0 10 0,
        Event.useDevice 0, Event.implMemFree 10], 0) :=
  realloc_zero_spec 0 4 50 10 (by decide)

/-- C8 counterexample: a configured device count of -1 (a set negative
value) is rejected with the fatal "must be >= 0" error, whereas the claim
says a negative setting uses all (here 2) detected devices. -/
theorem device_count_init_cex :
    chpl_gpu_init (EnvSetting.value (-1)) 2 =
      Except.error InitError.negativeCount ∧
    chpl_gpu_init (EnvSetting.value (-1)) 2 ≠ Except.ok 2 := by
  refine ⟨rfl, ?_⟩
  simp [chpl_gpu_init]

/-- C8 amended: an absent setting uses all detected devices; a set
non-negative value is clamped to the detected count; a set negative value
is a fatal configuration error, as is a malformed value; there are no other
fatal configuration cases. -/
theorem device_count_init_amended (detected n : Int) :
    chpl_gpu_init EnvSetting.absent detected = Except.ok detected ∧
    (0 ≤ n →
      chpl_gpu_init (EnvSetting.value n) detected =
        Except.ok (if n < detected then n else detected)) ∧
    (n < 0 →
      chpl_gpu_init (EnvSetting.value n) detected =
        Except.error InitError.negativeCount) ∧
    chpl_gpu_init EnvSetting.malformed detected =
      Except.error InitError.cannotParse := by
  refine ⟨?_, fun hn => ?_, fun hn => ?_, rfl⟩
  · simp [chpl_gpu_init, chpl_gpu_impl_init]
  · have h1 : ¬ n < 0 := not_lt.mpr hn
    have h2 : n ≠ -1 := by omega
    simp [chpl_gpu_init, chpl_gpu_impl_init, h1, h2]
  · simp [chpl_gpu_init, hn]

/-- C8 amended witness: a setting of 3 with 2 detected devices is clamped
to 2. -/
theorem device_count_init_amended_witness :
    chpl_gpu_init (EnvSetting.value 3) 2 =
      Except.ok (if (3:Int) < 2 then 3 else 2) :=
  (device_count_init_amended 2 3).2.1 (by decide)

/-- Helper: once the target device's context is current, further
switch_context calls to the same device produce no context traffic. -/
theorem switchSeq_same (d : Nat) (n : Nat) :
    switchSeq (some d) (List.replicate n d) = (some d, []) := by
  induction n with
  | zero => rfl
  | succ m ih => simp [List.replicate_succ, switchSeq, switch_context, ih]

/-- C9: switch_context pushes the target context once from the inactive
state, is a no-op when the target context is already current, and pops then
pushes exactly once when a different context is current; a run of repeated
switches to the same device performs at most one push, and zero pushes when
that device is already active. -/
theorem switch_context_spec (c d : Nat) (st : Option Nat) (n : Nat) :
    switch_context none d = (some d, [Event.ctxPush d]) ∧
    switch_context (some d) d = (some d, []) ∧
    (c ≠ d →
      switch_context (some c) d = (some d, [Event.ctxPop, Event.ctxPush d])) ∧
    countPushes (switchSeq st (List.replicate n d)).2 ≤ 1 ∧
    (st = some d → countPushes (switchSeq st (List.replicate n d)).2 = 0) := by
  refine ⟨rfl, by simp [switch_context], fun hcd => by simp [switch_context, hcd],
    ?_, ?_⟩
  · cases n with
    | zero => simp [switchSeq, countPushes]
    | succ m =>
      rw [List.replicate_succ]
      cases st with
      | none =>
        simp [switchSeq, switch_context, switchSeq_same d m, countPushes]
      | some cur =>
        by_cases hc : cur = d
        · subst hc
          simp [switchSeq, switch_context, switchSeq_same cur m, countPushes]
        · simp [switchSeq, switch_context, hc, switchSeq_same d m, countPushes]
  · intro hst
    subst hst
    rw [switchSeq_same d n]
    simp [countPushes]

/-- C9 witness: switching from device 1 to device 0 pops and pushes once;
three further switches to device 0 push nothing. -/
theorem switch_context_spec_witness :
    switch_context (some 1) 0 = (some 0, [Event.ctxPop, Event.ctxPush 0]) ∧
    countPushes (switchSeq (some 0) (List.replicate 3 0)).2 = 0 :=
  ⟨(switch_context_spec 1 0 (some 0) 3).2.2.1 (by decide),
   (switch_context_spec 1 0 (some 0) 3).2.2.2.2 rfl⟩

/-- Helper: allocPtrs distributes over trace concatenation. -/
theorem allocPtrs_append (s t : List Event) :
    allocPtrs (s ++ t) = allocPtrs s ++ allocPtrs t := by
  simp [allocPtrs]

/-- Helper: freedPtrs distributes over trace concatenation. -/
theorem freedPtrs_append (s t : List Event) :
    freedPtrs (s ++ t) = freedPtrs s ++ freedPtrs t := by
  simp [freedPtrs]

/-- Helper: launchCount distributes over trace concatenation. -/
theorem launchCount_append (s t : List Event) :
    launchCount (s ++ t) = launchCount s + launchCount t := by
  simp [launchCount]

/-- Helper: allocPtrs steps over a device-switch event. -/
theorem allocPtrs_useDevice (d : Int) (t : List Event) :
    allocPtrs (Event.useDevice d :: t) = allocPtrs t := rfl

/-- Helper: allocPtrs records a backend allocation event. -/
theorem allocPtrs_alloc (p n : Nat) (t : List Event) :
    allocPtrs (Event.implMemAlloc p n :: t) = p :: allocPtrs t := rfl

/-- Helper: allocPtrs steps over a host-to-device copy event. -/
theorem allocPtrs_copyHtoD (p q n : Nat) (t : List Event) :
    allocPtrs (Event.implCopyHtoD p q n :: t) = allocPtrs t := rfl

/-- Helper: allocPtrs steps over a backend free event. -/
theorem allocPtrs_free (p : Nat) (t : List Event) :
    allocPtrs (Event.implMemFree p :: t) = allocPtrs t := rfl

/-- Helper: freedPtrs steps over a device-switch event. -/
theorem freedPtrs_useDevice (d : Int) (t : List Event) :
    freedPtrs (Event.useDevice d :: t) = freedPtrs t := rfl

/-- Helper: freedPtrs steps over a backend allocation event. -/
theorem freedPtrs_alloc (p n : Nat) (t : List Event) :
    freedPtrs (Event.implMemAlloc p n :: t) = freedPtrs t := rfl

/-- Helper: freedPtrs steps over a host-to-device copy event. -/
theorem freedPtrs_copyHtoD (p q n : Nat) (t : List Event) :
    freedPtrs (Event.implCopyHtoD p q n :: t) = freedPtrs t := rfl

/-- Helper: freedPtrs records a backend free event. -/
theorem freedPtrs_free (p : Nat) (t : List Event) :
    freedPtrs (Event.implMemFree p :: t) = p :: freedPtrs t := rfl

/-- Helper: launchCount steps over a device-switch event. -/
theorem launchCount_useDevice (d : Int) (t : List Event) :
    launchCount (Event.useDevice d :: t) = launchCount t := rfl

/-- Helper: launchCount steps over a backend allocation event. -/
theorem launchCount_alloc (p n : Nat) (t : List Event) :
    launchCount (Event.implMemAlloc p n :: t) = launchCount t := rfl

/-- Helper: launchCount steps over a host-to-device copy event. -/
theorem launchCount_copyHtoD (p q n : Nat) (t : List Event) :
    launchCount (Event.implCopyHtoD p q n :: t) = launchCount t := rfl

/-- Helper: launchCount steps over a backend free event. -/
theorem launchCount_free (p : Nat) (t : List Event) :
    launchCount (Event.implMemFree p :: t) = launchCount t := rfl

/-- Helper: the staging loop's backend allocations are exactly the fresh
addresses at the staged argument indices, in order. -/
theorem stage_allocPtrs (subloc : Int) (fresh : Nat → Nat)
    (args : List (Nat × Nat)) :
    allocPtrs (stageArgs subloc fresh args).1 = (stagedIdx args).map fresh := by
  induction args generalizing fresh with
  | nil => rfl
  | cons a rest ih =>
    by_cases hp : 0 < a.2 <;>
      simp [stageArgs, stagedIdx, hp, chpl_gpu_mem_alloc, allocPtrs_append,
        allocPtrs_useDevice, allocPtrs_alloc, allocPtrs_copyHtoD, ih,
        List.map_map, Function.comp]

/-- Helper: the teardown loop's backend frees are exactly the fresh
addresses at the staged argument indices, in order. -/
theorem stage_freedPtrs (subloc : Int) (fresh : Nat → Nat)
    (args : List (Nat × Nat)) :
    freedPtrs (freeStaged subloc (stageArgs subloc fresh args).2) =
      (stagedIdx args).map fresh := by
  induction args generalizing fresh with
  | nil => rfl
  | cons a rest ih =>
    by_cases hp : 0 < a.2 <;>
      simp [stageArgs, stagedIdx, freeStaged, hp, chpl_gpu_mem_free,
        freedPtrs_append, freedPtrs_useDevice, freedPtrs_free, ih,
        List.map_map, Function.comp]

/-- Helper: the staging loop frees nothing. -/
theorem stage_freedPtrs_nil (subloc : Int) (fresh : Nat → Nat)
    (args : List (Nat × Nat)) :
    freedPtrs (stageArgs subloc fresh args).1 = [] := by
  induction args generalizing fresh with
  | nil => rfl
  | cons a rest ih =>
    by_cases hp : 0 < a.2 <;>
      simp [stageArgs, hp, chpl_gpu_mem_alloc, freedPtrs_useDevice,
        freedPtrs_alloc, freedPtrs_copyHtoD, ih]

/-- Helper: the teardown loop allocates nothing. -/
theorem freeStaged_allocPtrs_nil (subloc : Int) (ps : List (Nat × Bool)) :
    allocPtrs (freeStaged subloc ps) = [] := by
  induction ps with
  | nil => rfl
  | cons p rest ih =>
    by_cases hb : p.2 = true <;>
      simp [freeStaged, hb, chpl_gpu_mem_free, allocPtrs_useDevice,
        allocPtrs_free, ih]

/-- Helper: the staging loop never touches the kernel-launch counter. -/
theorem stage_launchCount (subloc : Int) (fresh : Nat → Nat)
    (args : List (Nat × Nat)) :
    launchCount (stageArgs subloc fresh args).1 = 0 := by
  induction args generalizing fresh with
  | nil => rfl
  | cons a rest ih =>
    by_cases hp : 0 < a.2 <;>
      simp [stageArgs, hp, chpl_gpu_mem_alloc, launchCount_append,
        launchCount_useDevice, launchCount_alloc, launchCount_copyHtoD, ih]

/-- Helper: the teardown loop never touches the kernel-launch counter. -/
theorem freeStaged_launchCount (subloc : Int) (ps : List (Nat × Bool)) :
    launchCount (freeStaged subloc ps) = 0 := by
  induction ps with
  | nil => rfl
  | cons p rest ih =>
    by_cases hb : p.2 = true <;>
      simp [freeStaged, hb, chpl_gpu_mem_free, launchCount_append,
        launchCount_useDevice, launchCount_free, ih]

/-- Helper: the staged argument indices are pairwise distinct. -/
theorem stagedIdx_nodup (args : List (Nat × Nat)) : (stagedIdx args).Nodup := by
  induction args with
  | nil => simp [stagedIdx]
  | cons a rest ih =>
    by_cases hp : 0 < a.2 <;> simp [stagedIdx, hp] <;>
      exact List.Nodup.map (fun x y h => by omega) ih

/-- Helper: there are as many staged indices as by-value arguments. -/
theorem stagedIdx_length (args : List (Nat × Nat)) :
    (stagedIdx args).length = stagedCount args := by
  induction args with
  | nil => rfl
  | cons a rest ih =>
    by_cases hp : 0 < a.2 <;>
      simp [stagedIdx, stagedCount, hp, ih, List.filter]

/-- Helper: every by-value argument gets a backend allocation of its size
and a host-to-device copy of its bytes into that allocation, both within
the staging trace. -/
theorem stage_copies (subloc : Int) (fresh : Nat → Nat)
    (args : List (Nat × Nat)) :
    ∀ a ∈ args, 0 < a.2 →
      ∃ p, Event.implMemAlloc p a.2 ∈ (stageArgs subloc fresh args).1 ∧
        Event.implCopyHtoD p a.1 a.2 ∈ (stageArgs subloc fresh args).1 := by
  induction args generalizing fresh with
  | nil => intro a ha; cases ha
  | cons b rest ih =>
    intro a ha hpos
    by_cases hp : 0 < b.2
    · rcases List.mem_cons.mp ha with rfl | hmem
      · refine ⟨fresh 0, ?_, ?_⟩ <;>
          simp [stageArgs, hp, chpl_gpu_mem_alloc]
      · obtain ⟨p, h1, h2⟩ := ih (fun i => fresh (i + 1)) a hmem hpos
        refine ⟨p, ?_, ?_⟩ <;>
          simp [stageArgs, hp, chpl_gpu_mem_alloc, h1, h2]
    · rcases List.mem_cons.mp ha with rfl | hmem
      · exact absurd hpos hp
      · obtain ⟨p, h1, h2⟩ := ih (fun i => fresh (i + 1)) a hmem hpos
        exact ⟨p, by simp [stageArgs, hp, h1], by simp [stageArgs, hp, h2]⟩

/-- C5: a kernel launch with k by-value (size > 0) and m pass-through
(size = 0) arguments performs exactly k backend staging allocations, copies
each by-value argument's host bytes into its staging buffer before the
kernel dispatch, frees exactly the k staging buffers (each exactly once)
after the kernel completes, never frees a pass-through pointer, and bumps
the kernel-launch diagnostic counter exactly once. The fresh-address supply
is injective and disjoint from the pass-through pointers, as a real
allocator's addresses are. -/
theorem launch_kernel_spec (subloc : Int) (fresh : Nat → Nat)
    (args : List (Nat × Nat)) (hinj : Function.Injective fresh)
    (hfresh : ∀ a ∈ args, a.2 = 0 → ∀ i, fresh i ≠ a.1) :
    (allocPtrs (chpl_gpu_launch_kernel subloc fresh args)).length =
      stagedCount args ∧
    freedPtrs (chpl_gpu_launch_kernel subloc fresh args) =
      allocPtrs (chpl_gpu_launch_kernel subloc fresh args) ∧
    (allocPtrs (chpl_gpu_launch_kernel subloc fresh args)).Nodup ∧
    (∀ a ∈ args, a.2 = 0 →
      a.1 ∉ freedPtrs (chpl_gpu_launch_kernel subloc fresh args)) ∧
    launchCount (chpl_gpu_launch_kernel subloc fresh args) = 1 ∧
    ∃ pre post,
      chpl_gpu_launch_kernel subloc fresh args =
        pre ++ Event.cuLaunchKernel :: post ∧
      (∀ a ∈ args, 0 < a.2 →
        ∃ p, Event.implMemAlloc p a.2 ∈ pre ∧
          Event.implCopyHtoD p a.1 a.2 ∈ pre) ∧
      freedPtrs pre = [] ∧
      allocPtrs post = [] := by
  have hsplit : chpl_gpu_launch_kernel subloc fresh args =
      (Event.useDevice subloc :: Event.diagIncr DiagKind.kernel_launch ::
        Event.loadFunction :: (stageArgs subloc fresh args).1) ++
      Event.cuLaunchKernel :: Event.cudaDeviceSync ::
        freeStaged subloc (stageArgs subloc fresh args).2 := by
    simp [chpl_gpu_launch_kernel, chpl_gpu_launch_kernel_help]
  have hall : allocPtrs (chpl_gpu_launch_kernel subloc fresh args) =
      (stagedIdx args).map fresh := by
    rw [hsplit, allocPtrs_append]
    have h1 : allocPtrs (Event.useDevice subloc ::
        Event.diagIncr DiagKind.kernel_launch :: Event.loadFunction ::
        (stageArgs subloc fresh args).1) =
        allocPtrs (stageArgs subloc fresh args).1 := rfl
    have h2 : allocPtrs (Event.cuLaunchKernel :: Event.cudaDeviceSync ::
        freeStaged subloc (stageArgs subloc fresh args).2) =
        allocPtrs (freeStaged subloc (stageArgs subloc fresh args).2) := rfl
    rw [h1, h2, stage_allocPtrs, freeStaged_allocPtrs_nil, List.append_nil]
  have hfreed : freedPtrs (chpl_gpu_launch_kernel subloc fresh args) =
      (stagedIdx args).map fresh := by
    rw [hsplit, freedPtrs_append]
    have h1 : freedPtrs (Event.useDevice subloc ::
        Event.diagIncr DiagKind.kernel_launch :: Event.loadFunction ::
        (stageArgs subloc fresh args).1) =
        freedPtrs (stageArgs subloc fresh args).1 := rfl
    have h2 : freedPtrs (Event.cuLaunchKernel :: Event.cudaDeviceSync ::
        freeStaged subloc (stageArgs subloc fresh args).2) =
        freedPtrs (freeStaged subloc (stageArgs subloc fresh args).2) := rfl
    rw [h1, h2, stage_freedPtrs_nil, stage_freedPtrs, List.nil_append]
  refine ⟨?_, ?_, ?_, ?_, ?_, ?_⟩
  · rw [hall, List.length_map, stagedIdx_length]
  · rw [hall, hfreed]
  · rw [hall]
    exact List.Nodup.map hinj (stagedIdx_nodup args)
  · intro a ha h0 hmem
    rw [hfreed] at hmem
    obtain ⟨i, _, hei⟩ := List.mem_map.mp hmem
    exact hfresh a ha h0 i hei
  · rw [hsplit, launchCount_append]
    have h1 : launchCount (Event.useDevice subloc ::
        Event.diagIncr DiagKind.kernel_launch :: Event.loadFunction ::
        (stageArgs subloc fresh args).1) =
        launchCount (stageArgs subloc fresh args).1 + 1 := by
      simp [launchCount, List.filter]
    have h2 : launchCount (Event.cuLaunchKernel :: Event.cudaDeviceSync ::
        freeStaged subloc (stageArgs subloc fresh args).2) =
        launchCount (freeStaged subloc (stageArgs subloc fresh args).2) := rfl
    rw [h1, h2, stage_launchCount, freeStaged_launchCount]
  · refine ⟨Event.useDevice subloc :: Event.diagIncr DiagKind.kernel_launch ::
      Event.loadFunction :: (stageArgs subloc fresh args).1,
      Event.cudaDeviceSync ::
        freeStaged subloc (stageArgs subloc fresh args).2,
      hsplit, ?_, ?_, ?_⟩
    · intro a ha hpos
      obtain ⟨p, h1, h2⟩ := stage_copies subloc fresh args a ha hpos
      exact ⟨p, by simp [h1], by simp [h2]⟩
    · have h1 : freedPtrs (Event.useDevice subloc ::
          Event.diagIncr DiagKind.kernel_launch :: Event.loadFunction ::
          (stageArgs subloc fresh args).1) =
          freedPtrs (stageArgs subloc fresh args).1 := rfl
      rw [h1, stage_freedPtrs_nil]
    · have h2 : allocPtrs (Event.cudaDeviceSync ::
          freeStaged subloc (stageArgs subloc fresh args).2) =
          allocPtrs (freeStaged subloc (stageArgs subloc fresh args).2) := rfl
      rw [h2, freeStaged_allocPtrs_nil]

/-- C5 witness: one by-value argument and one pass-through argument: one
staging allocation, freed and not the pass-through pointer, and one
kernel-launch counter increment. -/
theorem launch_kernel_spec_witness :
    (allocPtrs (chpl_gpu_launch_kernel 0 (fun i => i + 100) [(10, 4), (20, 0)])).length =
      stagedCount [(10, 4), (20, 0)] ∧
    launchCount (chpl_gpu_launch_kernel 0 (fun i => i + 100) [(10, 4), (20, 0)]) = 1 := by
  have hinj : Function.Injective (fun i => i + 100 : Nat → Nat) :=
    fun x y h => by simpa using h
  have hfr : ∀ a ∈ ([(10, 4), (20, 0)] : List (Nat × Nat)), a.2 = 0 →
      ∀ i, (fun i => i + 100 : Nat → Nat) i ≠ a.1 := by
    intro a ha h0 i
    fin_cases ha <;> simp_all
  exact ⟨(launch_kernel_spec 0 (fun i => i + 100) [(10, 4), (20, 0)] hinj hfr).1,
    (launch_kernel_spec 0 (fun i => i + 100) [(10, 4), (20, 0)] hinj hfr).2.2.2.2.1⟩

end ChplGpu
